import Mathlib

/-!
Verification of the Sensor Coverage & Placement Engine.

The numeric code is JavaScript, so arithmetic is modelled on `JSNum`,
rational numbers extended with `nan` and the two infinities, with the
IEEE-754-style propagation rules JavaScript uses (ignoring signed zero,
which none of the verified code paths distinguish).  Pure rational
values model finite doubles exactly on every code path checked here:
all constants involved (table entries, reference widths, bounds) are
exactly representable and the claimed identities are exact.
-/

inductive JSNum where
  | fin (q : ℚ)
  | nan
  | inf
  | ninf
deriving DecidableEq, Repr

namespace JSNum

/-- JavaScript `Number.isFinite`. -/
def isFinite : JSNum → Bool
  | .fin _ => true
  | _ => false

/-- JavaScript `a <= b` (false whenever an operand is NaN). -/
def jsLe : JSNum → JSNum → Bool
  | .nan, _ => false
  | _, .nan => false
  | .ninf, _ => true
  | _, .ninf => false
  | _, .inf => true
  | .inf, _ => false
  | .fin a, .fin b => decide (a ≤ b)

/-- JavaScript `a < b` (false whenever an operand is NaN). -/
def jsLt : JSNum → JSNum → Bool
  | .nan, _ => false
  | _, .nan => false
  | .ninf, .ninf => false
  | .ninf, _ => true
  | _, .ninf => false
  | .inf, _ => false
  | _, .inf => true
  | .fin a, .fin b => decide (a < b)

/-- JavaScript `a > b`. -/
def jsGt (a b : JSNum) : Bool := jsLt b a

/-- JavaScript `Math.max` (NaN-propagating). -/
def jsMax : JSNum → JSNum → JSNum
  | .nan, _ => .nan
  | _, .nan => .nan
  | .inf, _ => .inf
  | _, .inf => .inf
  | .ninf, b => b
  | a, .ninf => a
  | .fin a, .fin b => .fin (max a b)

/-- JavaScript `Math.min` (NaN-propagating). -/
def jsMin : JSNum → JSNum → JSNum
  | .nan, _ => .nan
  | _, .nan => .nan
  | .ninf, _ => .ninf
  | _, .ninf => .ninf
  | .inf, b => b
  | a, .inf => a
  | .fin a, .fin b => .fin (min a b)

/-- JavaScript addition. -/
def jsAdd : JSNum → JSNum → JSNum
  | .nan, _ => .nan
  | _, .nan => .nan
  | .inf, .ninf => .nan
  | .ninf, .inf => .nan
  | .inf, _ => .inf
  | _, .inf => .inf
  | .ninf, _ => .ninf
  | _, .ninf => .ninf
  | .fin a, .fin b => .fin (a + b)

/-- JavaScript unary minus. -/
def jsNeg : JSNum → JSNum
  | .fin a => .fin (-a)
  | .nan => .nan
  | .inf => .ninf
  | .ninf => .inf

/-- JavaScript subtraction. -/
def jsSub (a b : JSNum) : JSNum := jsAdd a (jsNeg b)

/-- JavaScript multiplication (`∞ · 0 = NaN`). -/
def jsMul : JSNum → JSNum → JSNum
  | .nan, _ => .nan
  | _, .nan => .nan
  | .inf, .inf => .inf
  | .inf, .ninf => .ninf
  | .ninf, .inf => .ninf
  | .ninf, .ninf => .inf
  | .inf, .fin b => if b = 0 then .nan else if 0 < b then .inf else .ninf
  | .fin a, .inf => if a = 0 then .nan else if 0 < a then .inf else .ninf
  | .ninf, .fin b => if b = 0 then .nan else if 0 < b then .ninf else .inf
  | .fin a, .ninf => if a = 0 then .nan else if 0 < a then .ninf else .inf
  | .fin a, .fin b => .fin (a * b)

/-- JavaScript division (signed zero ignored: `x / 0` takes the sign of `x`). -/
def jsDiv : JSNum → JSNum → JSNum
  | .nan, _ => .nan
  | _, .nan => .nan
  | .inf, .inf => .nan
  | .inf, .ninf => .nan
  | .ninf, .inf => .nan
  | .ninf, .ninf => .nan
  | .inf, .fin b => if 0 ≤ b then .inf else .ninf
  | .ninf, .fin b => if 0 ≤ b then .ninf else .inf
  | .fin _, .inf => .fin 0
  | .fin _, .ninf => .fin 0
  | .fin a, .fin b =>
      if b = 0 then (if a = 0 then .nan else if 0 < a then .inf else .ninf)
      else .fin (a / b)

end JSNum

open JSNum

/-! ## `src/rules/cameraFootprint.ts` -/

structure CameraFootprintParams where
  cameraHeight : JSNum
  rangeMax : JSNum
  hfovDeg : JSNum
  vfovDeg : JSNum

structure CameraFootprintResult where
  width : JSNum
  depth : JSNum
  area : JSNum
  d : JSNum
deriving DecidableEq

/-- The double `Math.PI`, an exactly representable rational. -/
def mathPI : ℚ := 884279719003555 / 281474976710656

/-- Function `toRadians` from `cameraFootprint.ts`: `(degrees * Math.PI) / 180`. -/
def toRadians (degrees : JSNum) : JSNum :=
  jsDiv (jsMul degrees (.fin mathPI)) (.fin 180)

/-- Function `safeValue` from `cameraFootprint.ts`: `Number.isFinite(value) ? value : 0`. -/
def safeValue (value : JSNum) : JSNum :=
  if value.isFinite then value else .fin 0

/-- Function `calcFootprint` from `cameraFootprint.ts`.  `Math.tan` is transcendental, so
it is passed in as a parameter; JavaScript's `Math.tan` returns a finite double
on every finite argument, which theorems assume as a hypothesis. -/
def calcFootprint (tan : JSNum → JSNum) (params : CameraFootprintParams) :
    CameraFootprintResult :=
  let cameraHeight := jsMax (.fin 0) (safeValue params.cameraHeight)
  let rangeMax := jsMax (.fin 0) (safeValue params.rangeMax)
  let hfovDeg := safeValue params.hfovDeg
  let vfovDeg := safeValue params.vfovDeg
  let d := jsMax (.fin 0) (jsMin cameraHeight rangeMax)
  let width := jsMax (.fin 0) (jsMul (jsMul (.fin 2) d) (tan (toRadians (jsDiv hfovDeg (.fin 2)))))
  let depth := jsMax (.fin 0) (jsMul (jsMul (.fin 2) d) (tan (toRadians (jsDiv vfovDeg (.fin 2)))))
  { width := width
    depth := depth
    area := jsMax (.fin 0) (jsMul width depth)
    d := d }

/-- The input struct with every field passed through `safeValue`. -/
def sanitizeParams (params : CameraFootprintParams) : CameraFootprintParams :=
  { cameraHeight := safeValue params.cameraHeight
    rangeMax := safeValue params.rangeMax
    hfovDeg := safeValue params.hfovDeg
    vfovDeg := safeValue params.vfovDeg }

/-! ## `src/rules/aviotec.ts` -/

structure HeightLookup where
  height : ℚ
  flameDistance : ℚ
  smokeDistance : ℚ
deriving DecidableEq

instance : Inhabited HeightLookup := ⟨⟨0, 0, 0⟩⟩

def HEIGHT_LOOKUP : List HeightLookup :=
  [ ⟨2, 4, 3⟩
  , ⟨5, 9, 7⟩
  , ⟨10, 16, 12⟩
  , ⟨15, 22, 17⟩
  , ⟨20, 27, 21⟩
  , ⟨25, 31, 24⟩
  , ⟨30, 34, 26⟩ ]

def FLAME_REFERENCE_WIDTH : ℚ := 1/2
def SMOKE_REFERENCE_WIDTH : ℚ := 3/4

/-- Function `clamp` from `aviotec.ts`: `Math.min(Math.max(value, min), max)`. -/
def clampJS (value lo hi : JSNum) : JSNum := jsMin (jsMax value lo) hi

/-- Function `interpolate` from `aviotec.ts`; returns the `(flame, smoke)` pair. -/
def interpolate (value : JSNum) (lo hi : HeightLookup) : JSNum × JSNum :=
  if lo.height = hi.height then (.fin lo.flameDistance, .fin lo.smokeDistance)
  else
    let r := jsDiv (jsSub value (.fin lo.height)) (jsSub (.fin hi.height) (.fin lo.height))
    ( jsAdd (.fin lo.flameDistance) (jsMul r (jsSub (.fin hi.flameDistance) (.fin lo.flameDistance)))
    , jsAdd (.fin lo.smokeDistance) (jsMul r (jsSub (.fin hi.smokeDistance) (.fin lo.smokeDistance))) )

/-- JavaScript `Array.prototype.findIndex`, with `none` for `-1`. -/
def findIdxO (p : HeightLookup → Bool) : List HeightLookup → Option Nat
  | [] => none
  | row :: rest => if p row then some 0 else (findIdxO p rest).map (· + 1)

/-- Function `lookupBaseDistances` from `aviotec.ts`; returns the `(flame, smoke)` pair.
`lowerIndex <= 0` in the source covers both `-1` (no row found) and `0`. -/
def lookupBaseDistances (mountingHeight : JSNum) : JSNum × JSNum :=
  let first := HEIGHT_LOOKUP.headI
  let clamped := clampJS mountingHeight (.fin first.height) (.fin HEIGHT_LOOKUP.getLastI.height)
  match findIdxO (fun row => jsLe clamped (.fin row.height)) HEIGHT_LOOKUP with
  | none => (.fin first.flameDistance, .fin first.smokeDistance)
  | some 0 => (.fin first.flameDistance, .fin first.smokeDistance)
  | some (i + 1) =>
      interpolate clamped (HEIGHT_LOOKUP.getD i default) (HEIGHT_LOOKUP.getD (i + 1) default)

structure AviotecInputs where
  mountingHeightMeters : JSNum
  openingAngleDeg : JSNum
  focalLengthMm : JSNum
  minFlameWidthMeters : JSNum
  minSmokeWidthMeters : JSNum

structure AviotecOutputs where
  flameMaxDistanceMeters : JSNum
  smokeMaxDistanceMeters : JSNum
  warnings : List String
deriving DecidableEq

def mountingHeightWarning : String := "Mounting height should be between 0 and 30 meters."
def openingAngleWarning : String := "Opening angle should be between 0 and 120 degrees."
def focalLengthWarning : String := "Focal length must be greater than 0 mm."
def minWidthWarning : String := "Minimum target widths must be greater than 0 meters."

/-- Function `calculateAviotec` from `aviotec.ts`. -/
def calculateAviotec (inputs : AviotecInputs) : AviotecOutputs :=
  let warnings : List String := []
  let warnings :=
    if jsLe inputs.mountingHeightMeters (.fin 0) || jsGt inputs.mountingHeightMeters (.fin 30)
    then warnings ++ [mountingHeightWarning] else warnings
  let warnings :=
    if jsLe inputs.openingAngleDeg (.fin 0) || jsGt inputs.openingAngleDeg (.fin 120)
    then warnings ++ [openingAngleWarning] else warnings
  let warnings :=
    if jsLe inputs.focalLengthMm (.fin 0)
    then warnings ++ [focalLengthWarning] else warnings
  let warnings :=
    if jsLe inputs.minFlameWidthMeters (.fin 0) || jsLe inputs.minSmokeWidthMeters (.fin 0)
    then warnings ++ [minWidthWarning] else warnings
  let base := lookupBaseDistances inputs.mountingHeightMeters
  let flameScale :=
    if jsGt inputs.minFlameWidthMeters (.fin 0)
    then jsDiv inputs.minFlameWidthMeters (.fin FLAME_REFERENCE_WIDTH) else .fin 0
  let smokeScale :=
    if jsGt inputs.minSmokeWidthMeters (.fin 0)
    then jsDiv inputs.minSmokeWidthMeters (.fin SMOKE_REFERENCE_WIDTH) else .fin 0
  let flameMaxDistanceMeters := jsMax (.fin 0) (jsMul base.1 flameScale)
  let smokeMaxDistanceMeters := jsMax (.fin 0) (jsMul base.2 smokeScale)
  { flameMaxDistanceMeters := flameMaxDistanceMeters
    smokeMaxDistanceMeters := smokeMaxDistanceMeters
    warnings := warnings }

/-! ## `src/views/Mode3DParam/Mode3DParam.tsx`

The numeric inputs of this view are parsed through `toSafeNumber`, which
already maps non-finite values to 0, so this slice is modelled over ℚ. -/

structure Mode3DInputs where
  roomLength : ℚ
  roomWidth : ℚ
  roomHeight : ℚ
  wallThickness : ℚ
  cameraHeight : ℚ
  hfovDeg : ℚ
  vfovDeg : ℚ
  rangeMax : ℚ

structure CameraPlacement where
  position : ℚ × ℚ × ℚ
  normal : ℚ × ℚ × ℚ
deriving DecidableEq

/-- Function `clamp` from `Mode3DParam.tsx`: `Math.min(Math.max(value, min), max)`. -/
def clampQ (value lo hi : ℚ) : ℚ := min (max value lo) hi

/-- The bounds-clamp effect of `Mode3DParam` (the `setCameraPlacement` updater
run whenever room bounds or camera height change): `x` and `z` are re-clamped
from the previous position, `y` is set to the clamped `cameraHeight` input, the
normal is carried over, and the previous object is returned when the position
is unchanged. -/
def clampPlacementToBounds (inputs : Mode3DInputs) (prev : Option CameraPlacement) :
    Option CameraPlacement :=
  match prev with
  | none => none
  | some p =>
      let nextPosition : ℚ × ℚ × ℚ :=
        ( clampQ p.position.1 inputs.wallThickness (inputs.roomLength - inputs.wallThickness)
        , clampQ inputs.cameraHeight 0 inputs.roomHeight
        , clampQ p.position.2.2 inputs.wallThickness (inputs.roomWidth - inputs.wallThickness) )
      let isSame := p.position = nextPosition
      if isSame then some p else some { position := nextPosition, normal := p.normal }

/-- A placement position inside the room bounds, as the spec describes it. -/
def inBounds (inputs : Mode3DInputs) (p : CameraPlacement) : Prop :=
  inputs.wallThickness ≤ p.position.1 ∧
  p.position.1 ≤ inputs.roomLength - inputs.wallThickness ∧
  0 ≤ p.position.2.1 ∧ p.position.2.1 ≤ inputs.roomHeight ∧
  inputs.wallThickness ≤ p.position.2.2 ∧
  p.position.2.2 ≤ inputs.roomWidth - inputs.wallThickness

instance (inputs : Mode3DInputs) (p : CameraPlacement) : Decidable (inBounds inputs p) := by
  unfold inBounds; infer_instance

/-! ### The aim raycaster's normal handling (`AimRaycaster`)

`three.js` vector geometry involves square roots, so this slice is modelled
over ℝ.  The input `faceNormal` stands for the face normal already transformed
into world space by the normal matrix (`hit.face.normal.applyMatrix3(...)`). -/

structure Vec3 where
  x : ℝ
  y : ℝ
  z : ℝ

def dot3 (a b : Vec3) : ℝ := a.x * b.x + a.y * b.y + a.z * b.z

def smul3 (c : ℝ) (v : Vec3) : Vec3 := ⟨c * v.x, c * v.y, c * v.z⟩

noncomputable def length3 (v : Vec3) : ℝ := Real.sqrt (v.x * v.x + v.y * v.y + v.z * v.z)

/-- The `three.js` `Vector3.normalize`: `divideScalar(this.length() || 1)`. -/
noncomputable def normalize3 (v : Vec3) : Vec3 :=
  let len := length3 v
  smul3 (1 / (if len = 0 then 1 else len)) v

/-- The normal pipeline of `AimRaycaster`'s frame handler: normalize the
world-space face normal and flip it when it points along the ray direction. -/
noncomputable def resolveAimNormal (faceNormal direction : Vec3) : Vec3 :=
  let worldNormal := normalize3 faceNormal
  if 0 < dot3 worldNormal direction then smul3 (-1) worldNormal else worldNormal

/-! ## Basic lemmas about the JavaScript number model -/

namespace JSNum

@[simp] lemma jsLe_fin (a b : ℚ) : jsLe (.fin a) (.fin b) = decide (a ≤ b) := rfl

@[simp] lemma jsLt_fin (a b : ℚ) : jsLt (.fin a) (.fin b) = decide (a < b) := rfl

@[simp] lemma jsGt_fin (a b : ℚ) : jsGt (.fin a) (.fin b) = decide (b < a) := rfl

@[simp] lemma jsMax_fin (a b : ℚ) : jsMax (.fin a) (.fin b) = .fin (max a b) := rfl

@[simp] lemma jsMin_fin (a b : ℚ) : jsMin (.fin a) (.fin b) = .fin (min a b) := rfl

@[simp] lemma jsAdd_fin (a b : ℚ) : jsAdd (.fin a) (.fin b) = .fin (a + b) := rfl

@[simp] lemma jsMul_fin (a b : ℚ) : jsMul (.fin a) (.fin b) = .fin (a * b) := rfl

@[simp] lemma jsSub_fin (a b : ℚ) : jsSub (.fin a) (.fin b) = .fin (a - b) := by
  simp [jsSub, jsNeg, jsAdd, sub_eq_add_neg]

lemma jsDiv_fin_of_ne (a b : ℚ) (hb : b ≠ 0) : jsDiv (.fin a) (.fin b) = .fin (a / b) := by
  simp [jsDiv, hb]

@[simp] lemma isFinite_fin (a : ℚ) : (JSNum.fin a).isFinite = true := rfl

end JSNum

@[simp] lemma safeValue_fin (a : ℚ) : safeValue (.fin a) = .fin a := rfl

lemma safeValue_idem (v : JSNum) : safeValue (safeValue v) = safeValue v := by
  cases v <;> rfl

lemma safeValue_eq_fin (v : JSNum) : ∃ q : ℚ, safeValue v = .fin q := by
  cases v <;> exact ⟨_, rfl⟩

/-! ## The table lookup stays within the extreme calibration rows -/

lemma interpolate_fin_bounds (c lh flo slo hh fhi shi : ℚ)
    (hlt : lh < hh) (h1 : lh ≤ c) (h2 : c ≤ hh)
    (hflame : flo ≤ fhi) (hsmoke : slo ≤ shi) :
    ∃ f s, interpolate (.fin c) ⟨lh, flo, slo⟩ ⟨hh, fhi, shi⟩ = (.fin f, .fin s) ∧
      flo ≤ f ∧ f ≤ fhi ∧ slo ≤ s ∧ s ≤ shi := by
  have hne : lh ≠ hh := ne_of_lt hlt
  have hdpos : 0 < hh - lh := sub_pos.mpr hlt
  have hdne : hh - lh ≠ 0 := ne_of_gt hdpos
  have hr0 : 0 ≤ (c - lh) / (hh - lh) := div_nonneg (sub_nonneg.mpr h1) hdpos.le
  have hr1 : (c - lh) / (hh - lh) ≤ 1 := (div_le_one hdpos).mpr (sub_le_sub_right h2 _)
  refine ⟨flo + (c - lh) / (hh - lh) * (fhi - flo),
          slo + (c - lh) / (hh - lh) * (shi - slo), ?_, ?_, ?_, ?_, ?_⟩
  · simp [interpolate, hne, JSNum.jsDiv_fin_of_ne _ _ hdne]
  · nlinarith
  · nlinarith
  · nlinarith
  · nlinarith

/-- Unfolding of `lookupBaseDistances` with the table constants inlined (definitional). -/
lemma lookupBaseDistances_eq (h : JSNum) :
    lookupBaseDistances h =
      (let clamped := clampJS h (.fin 2) (.fin 30)
       match findIdxO (fun row => jsLe clamped (.fin row.height)) HEIGHT_LOOKUP with
       | none => (.fin 4, .fin 3)
       | some 0 => (.fin 4, .fin 3)
       | some (i + 1) =>
           interpolate clamped (HEIGHT_LOOKUP.getD i default)
             (HEIGHT_LOOKUP.getD (i + 1) default)) := rfl

lemma lookup_base_bounds (h : JSNum) :
    ∃ f s, lookupBaseDistances h = (.fin f, .fin s) ∧
      4 ≤ f ∧ f ≤ 34 ∧ 3 ≤ s ∧ s ≤ 26 := by
  cases h with
  | nan => exact ⟨4, 3, rfl, by norm_num, by norm_num, by norm_num, by norm_num⟩
  | inf =>
      refine ⟨34, 26, ?_, by norm_num, by norm_num, by norm_num, by norm_num⟩
      show interpolate (.fin 30) ⟨25, 31, 24⟩ ⟨30, 34, 26⟩ = (.fin 34, .fin 26)
      norm_num [interpolate, JSNum.jsDiv_fin_of_ne]
  | ninf => exact ⟨4, 3, rfl, by norm_num, by norm_num, by norm_num, by norm_num⟩
  | fin q =>
    rw [lookupBaseDistances_eq]
    have hclamped : clampJS (.fin q) (.fin 2) (.fin 30) = .fin (min (max q 2) 30) := rfl
    set c : ℚ := min (max q 2) 30 with hcdef
    have hlo : 2 ≤ c := le_min (le_max_right _ _) (by norm_num)
    have hhi : c ≤ 30 := min_le_right _ _
    simp only [hclamped]
    by_cases hb2 : c ≤ 2
    · have hfind : findIdxO (fun row => jsLe (.fin c) (.fin row.height)) HEIGHT_LOOKUP
          = some 0 := by
        simp [findIdxO, HEIGHT_LOOKUP, hb2]
      rw [hfind]
      exact ⟨4, 3, rfl, by norm_num, by norm_num, by norm_num, by norm_num⟩
    · by_cases hb5 : c ≤ 5
      · have hfind : findIdxO (fun row => jsLe (.fin c) (.fin row.height)) HEIGHT_LOOKUP
            = some 1 := by
          simp [findIdxO, HEIGHT_LOOKUP, hb2, hb5]
        rw [hfind]
        obtain ⟨f, s, heq, hf1, hf2, hs1, hs2⟩ :=
          interpolate_fin_bounds c 2 4 3 5 9 7 (by norm_num) hlo hb5
            (by norm_num) (by norm_num)
        exact ⟨f, s, heq, by linarith, by linarith, by linarith, by linarith⟩
      · by_cases hb10 : c ≤ 10
        · have hfind : findIdxO (fun row => jsLe (.fin c) (.fin row.height)) HEIGHT_LOOKUP
              = some 2 := by
            simp [findIdxO, HEIGHT_LOOKUP, hb2, hb5, hb10]
          rw [hfind]
          obtain ⟨f, s, heq, hf1, hf2, hs1, hs2⟩ :=
            interpolate_fin_bounds c 5 9 7 10 16 12 (by norm_num) (le_of_lt (not_le.mp hb5))
              hb10 (by norm_num) (by norm_num)
          exact ⟨f, s, heq, by linarith, by linarith, by linarith, by linarith⟩
        · by_cases hb15 : c ≤ 15
          · have hfind : findIdxO (fun row => jsLe (.fin c) (.fin row.height)) HEIGHT_LOOKUP
                = some 3 := by
              simp [findIdxO, HEIGHT_LOOKUP, hb2, hb5, hb10, hb15]
            rw [hfind]
            obtain ⟨f, s, heq, hf1, hf2, hs1, hs2⟩ :=
              interpolate_fin_bounds c 10 16 12 15 22 17 (by norm_num)
                (le_of_lt (not_le.mp hb10)) hb15 (by norm_num) (by norm_num)
            exact ⟨f, s, heq, by linarith, by linarith, by linarith, by linarith⟩
          · by_cases hb20 : c ≤ 20
            · have hfind : findIdxO (fun row => jsLe (.fin c) (.fin row.height)) HEIGHT_LOOKUP
                  = some 4 := by
                simp [findIdxO, HEIGHT_LOOKUP, hb2, hb5, hb10, hb15, hb20]
              rw [hfind]
              obtain ⟨f, s, heq, hf1, hf2, hs1, hs2⟩ :=
                interpolate_fin_bounds c 15 22 17 20 27 21 (by norm_num)
                  (le_of_lt (not_le.mp hb15)) hb20 (by norm_num) (by norm_num)
              exact ⟨f, s, heq, by linarith, by linarith, by linarith, by linarith⟩
            · by_cases hb25 : c ≤ 25
              · have hfind : findIdxO (fun row => jsLe (.fin c) (.fin row.height)) HEIGHT_LOOKUP
                    = some 5 := by
                  simp [findIdxO, HEIGHT_LOOKUP, hb2, hb5, hb10, hb15, hb20, hb25]
                rw [hfind]
                obtain ⟨f, s, heq, hf1, hf2, hs1, hs2⟩ :=
                  interpolate_fin_bounds c 20 27 21 25 31 24 (by norm_num)
                    (le_of_lt (not_le.mp hb20)) hb25 (by norm_num) (by norm_num)
                exact ⟨f, s, heq, by linarith, by linarith, by linarith, by linarith⟩
              · have hfind : findIdxO (fun row => jsLe (.fin c) (.fin row.height)) HEIGHT_LOOKUP
                    = some 6 := by
                  simp [findIdxO, HEIGHT_LOOKUP, hb2, hb5, hb10, hb15, hb20, hb25, hhi]
                rw [hfind]
                obtain ⟨f, s, heq, hf1, hf2, hs1, hs2⟩ :=
                  interpolate_fin_bounds c 25 31 24 30 34 26 (by norm_num)
                    (le_of_lt (not_le.mp hb25)) hhi (by norm_num) (by norm_num)
                exact ⟨f, s, heq, by linarith, by linarith, by linarith, by linarith⟩

/-! ## Projections of `calculateAviotec` (definitional) -/

lemma calculateAviotec_flame (i : AviotecInputs) :
    (calculateAviotec i).flameMaxDistanceMeters =
      jsMax (.fin 0) (jsMul (lookupBaseDistances i.mountingHeightMeters).1
        (if jsGt i.minFlameWidthMeters (.fin 0)
         then jsDiv i.minFlameWidthMeters (.fin FLAME_REFERENCE_WIDTH) else .fin 0)) := rfl

lemma calculateAviotec_smoke (i : AviotecInputs) :
    (calculateAviotec i).smokeMaxDistanceMeters =
      jsMax (.fin 0) (jsMul (lookupBaseDistances i.mountingHeightMeters).2
        (if jsGt i.minSmokeWidthMeters (.fin 0)
         then jsDiv i.minSmokeWidthMeters (.fin SMOKE_REFERENCE_WIDTH) else .fin 0)) := rfl

lemma calculateAviotec_warnings (i : AviotecInputs) :
    (calculateAviotec i).warnings =
      (if jsLe i.mountingHeightMeters (.fin 0) || jsGt i.mountingHeightMeters (.fin 30)
       then [mountingHeightWarning] else []) ++
      (if jsLe i.openingAngleDeg (.fin 0) || jsGt i.openingAngleDeg (.fin 120)
       then [openingAngleWarning] else []) ++
      (if jsLe i.focalLengthMm (.fin 0)
       then [focalLengthWarning] else []) ++
      (if jsLe i.minFlameWidthMeters (.fin 0) || jsLe i.minSmokeWidthMeters (.fin 0)
       then [minWidthWarning] else []) := by
  simp only [calculateAviotec]
  split_ifs <;> simp

/-- C3: for a mounting height exactly equal to a calibration row's height, the
interpolated base flame/smoke distances equal that row's values exactly; in
particular at height 10 with the reference widths 0.5 and 0.75 the outputs are
flame 16 and smoke 12. -/
theorem aviotec_calibration_rows_exact :
    (∀ row ∈ HEIGHT_LOOKUP, lookupBaseDistances (.fin row.height) =
        (.fin row.flameDistance, .fin row.smokeDistance)) ∧
    ∀ angle focal : JSNum,
      (calculateAviotec ⟨.fin 10, angle, focal, .fin (1/2), .fin (3/4)⟩).flameMaxDistanceMeters
          = .fin 16 ∧
      (calculateAviotec ⟨.fin 10, angle, focal, .fin (1/2), .fin (3/4)⟩).smokeMaxDistanceMeters
          = .fin 12 := by
  constructor
  · intro row hrow
    fin_cases hrow <;>
      norm_num [lookupBaseDistances_eq, clampJS, findIdxO, HEIGHT_LOOKUP, interpolate,
        JSNum.jsDiv, JSNum.jsMax, JSNum.jsMin]
  · intro angle focal
    rw [calculateAviotec_flame, calculateAviotec_smoke]
    norm_num [lookupBaseDistances_eq, clampJS, findIdxO, HEIGHT_LOOKUP, interpolate,
      JSNum.jsDiv, JSNum.jsMax, JSNum.jsMin, JSNum.jsMul,
      FLAME_REFERENCE_WIDTH, SMOKE_REFERENCE_WIDTH]

/-- Witness for C3 at the height-10 row and concrete remaining inputs. -/
theorem aviotec_calibration_rows_exact_witness :
    lookupBaseDistances (.fin (10 : ℚ)) = (.fin 16, .fin 12) ∧
    (calculateAviotec ⟨.fin 10, .fin (97/2), .fin 6, .fin (1/2), .fin (3/4)⟩).flameMaxDistanceMeters
        = .fin 16 := by
  refine ⟨aviotec_calibration_rows_exact.1 ⟨10, 16, 12⟩ ?_, 
    (aviotec_calibration_rows_exact.2 (.fin (97/2)) (.fin 6)).1⟩
  simp [HEIGHT_LOOKUP]

/-- C4: a mounting height of 35 is clamped to the table maximum 30, the
height-30 row's base distances (flame 34, smoke 26) are used before width
scaling, and the warnings list contains the mounting-height warning. -/
theorem aviotec_height_clamped_to_table_max :
    lookupBaseDistances (.fin 35) = (.fin 34, .fin 26) ∧
    ∀ angle focal flameW smokeW : JSNum,
      mountingHeightWarning ∈
        (calculateAviotec ⟨.fin 35, angle, focal, flameW, smokeW⟩).warnings := by
  constructor
  · show interpolate (.fin 30) ⟨25, 31, 24⟩ ⟨30, 34, 26⟩ = (.fin 34, .fin 26)
    norm_num [interpolate, JSNum.jsDiv_fin_of_ne]
  · intro angle focal flameW smokeW
    rw [calculateAviotec_warnings]
    simp
    norm_num

/-- Helper: the width scale factor always evaluates to a finite rational. -/
lemma scale_factor_fin (w refW : ℚ) (href : refW ≠ 0) :
    (if jsGt (JSNum.fin w) (.fin 0) then jsDiv (.fin w) (.fin refW) else .fin 0)
      = .fin (if 0 < w then w / refW else 0) := by
  by_cases hw : 0 < w
  · simp [hw, JSNum.jsDiv_fin_of_ne _ _ href]
  · simp [hw]

/-- C5: `calculateAviotec` is monotonic in the minimum flame width: with every
other input held fixed, a larger `minFlameWidthMeters` never yields a smaller
`flameMaxDistanceMeters`. -/
theorem aviotec_flame_monotone_in_width
    (h angle focal smokeW : JSNum) (w1 w2 : ℚ) (hw : w1 ≤ w2) :
    ∃ q1 q2,
      (calculateAviotec ⟨h, angle, focal, .fin w1, smokeW⟩).flameMaxDistanceMeters = .fin q1 ∧
      (calculateAviotec ⟨h, angle, focal, .fin w2, smokeW⟩).flameMaxDistanceMeters = .fin q2 ∧
      q1 ≤ q2 := by
  obtain ⟨B, S, hB, hB4, hB34, hS3, hS26⟩ := lookup_base_bounds h
  have href : FLAME_REFERENCE_WIDTH ≠ 0 := by norm_num [FLAME_REFERENCE_WIDTH]
  refine ⟨max 0 (B * if 0 < w1 then w1 / FLAME_REFERENCE_WIDTH else 0),
          max 0 (B * if 0 < w2 then w2 / FLAME_REFERENCE_WIDTH else 0), ?_, ?_, ?_⟩
  · rw [calculateAviotec_flame]
    simp only [scale_factor_fin _ _ href, hB, JSNum.jsMul_fin, JSNum.jsMax_fin]
  · rw [calculateAviotec_flame]
    simp only [scale_factor_fin _ _ href, hB, JSNum.jsMul_fin, JSNum.jsMax_fin]
  · have hmono : (if 0 < w1 then w1 / FLAME_REFERENCE_WIDTH else 0)
        ≤ (if 0 < w2 then w2 / FLAME_REFERENCE_WIDTH else 0) := by
      split_ifs with h1 h2 h2
      · norm_num [FLAME_REFERENCE_WIDTH]; linarith
      · linarith
      · have : (0:ℚ) < w2 / FLAME_REFERENCE_WIDTH := by
          norm_num [FLAME_REFERENCE_WIDTH]; linarith
        linarith
      · linarith
    exact max_le_max le_rfl (mul_le_mul_of_nonneg_left hmono (by linarith))

/-- Witness for C5 at concrete inputs. -/
theorem aviotec_flame_monotone_in_width_witness :
    ∃ q1 q2,
      (calculateAviotec ⟨.fin 10, .fin 48, .fin 6, .fin (1/4),
        .fin (3/4)⟩).flameMaxDistanceMeters = .fin q1 ∧
      (calculateAviotec ⟨.fin 10, .fin 48, .fin 6, .fin (1/2),
        .fin (3/4)⟩).flameMaxDistanceMeters = .fin q2 ∧
      q1 ≤ q2 :=
  aviotec_flame_monotone_in_width (.fin 10) (.fin 48) (.fin 6) (.fin (3/4)) (1/4) (1/2)
    (by norm_num)

/-- C6: whenever a minimum width input is a non-positive (finite) number, the
corresponding output distance of `calculateAviotec` is exactly 0, regardless of
the table lookup result. -/
theorem aviotec_nonpositive_width_zeroes_output (i : AviotecInputs) :
    (∀ q : ℚ, i.minFlameWidthMeters = .fin q → q ≤ 0 →
      (calculateAviotec i).flameMaxDistanceMeters = .fin 0) ∧
    (∀ q : ℚ, i.minSmokeWidthMeters = .fin q → q ≤ 0 →
      (calculateAviotec i).smokeMaxDistanceMeters = .fin 0) := by
  obtain ⟨B, S, hB, hB4, hB34, hS3, hS26⟩ := lookup_base_bounds i.mountingHeightMeters
  constructor
  · intro q hq hq0
    rw [calculateAviotec_flame, hq, hB]
    have hgt : jsGt (JSNum.fin q) (.fin 0) = false := by simp [not_lt.mpr hq0]
    simp [hgt]
  · intro q hq hq0
    rw [calculateAviotec_smoke, hq, hB]
    have hgt : jsGt (JSNum.fin q) (.fin 0) = false := by simp [not_lt.mpr hq0]
    simp [hgt]

/-- Witness for C6 at concrete inputs with both widths negative. -/
theorem aviotec_nonpositive_width_zeroes_output_witness :
    (calculateAviotec ⟨.fin 10, .fin 48, .fin 6, .fin (-1),
      .fin (-2)⟩).flameMaxDistanceMeters = .fin 0 ∧
    (calculateAviotec ⟨.fin 10, .fin 48, .fin 6, .fin (-1),
      .fin (-2)⟩).smokeMaxDistanceMeters = .fin 0 :=
  ⟨(aviotec_nonpositive_width_zeroes_output _).1 (-1) rfl (by norm_num),
   (aviotec_nonpositive_width_zeroes_output _).2 (-2) rfl (by norm_num)⟩

/-- C7: `calculateAviotec` never throws and collects all validation violations
without short-circuiting: the warnings list is exactly one fixed string per
violated rule, in the fixed order mounting height, opening angle, focal length,
minimum widths, and is empty when every rule passes. -/
theorem aviotec_warnings_exact (h a f w1 w2 : ℚ) :
    (calculateAviotec ⟨.fin h, .fin a, .fin f, .fin w1, .fin w2⟩).warnings =
      (if h ≤ 0 ∨ 30 < h then [mountingHeightWarning] else []) ++
      (if a ≤ 0 ∨ 120 < a then [openingAngleWarning] else []) ++
      (if f ≤ 0 then [focalLengthWarning] else []) ++
      (if w1 ≤ 0 ∨ w2 ≤ 0 then [minWidthWarning] else []) := by
  rw [calculateAviotec_warnings]
  simp only [JSNum.jsLe_fin, JSNum.jsGt_fin, Bool.or_eq_true, decide_eq_true_eq]

/-- C10: for every mounting height input, including NaN and the infinities, the
pre-scaling base distances lie within the table's extreme rows (flame in
[4, 34], smoke in [3, 26]); hence for positive minimum widths the scaled
outputs are bounded by fixed multiples of those widths. -/
theorem lookup_within_extreme_rows :
    (∀ h : JSNum, ∃ f s, lookupBaseDistances h = (.fin f, .fin s) ∧
        4 ≤ f ∧ f ≤ 34 ∧ 3 ≤ s ∧ s ≤ 26) ∧
    (∀ (h angle focal : JSNum) (w1 w2 : ℚ), 0 < w1 → 0 < w2 →
      ∃ q1 q2,
        (calculateAviotec ⟨h, angle, focal, .fin w1, .fin w2⟩).flameMaxDistanceMeters
            = .fin q1 ∧
        (calculateAviotec ⟨h, angle, focal, .fin w1, .fin w2⟩).smokeMaxDistanceMeters
            = .fin q2 ∧
        q1 ≤ 68 * w1 ∧ q2 ≤ (104/3) * w2) := by
  constructor
  · exact lookup_base_bounds
  · intro h angle focal w1 w2 hw1 hw2
    obtain ⟨B, S, hB, hB4, hB34, hS3, hS26⟩ := lookup_base_bounds h
    have hrefF : FLAME_REFERENCE_WIDTH ≠ 0 := by norm_num [FLAME_REFERENCE_WIDTH]
    have hrefS : SMOKE_REFERENCE_WIDTH ≠ 0 := by norm_num [SMOKE_REFERENCE_WIDTH]
    refine ⟨max 0 (B * (w1 / FLAME_REFERENCE_WIDTH)),
            max 0 (S * (w2 / SMOKE_REFERENCE_WIDTH)), ?_, ?_, ?_, ?_⟩
    · rw [calculateAviotec_flame]
      simp only [scale_factor_fin _ _ hrefF, hB, JSNum.jsMul_fin, JSNum.jsMax_fin,
        if_pos hw1]
    · rw [calculateAviotec_smoke]
      simp only [scale_factor_fin _ _ hrefS, hB, JSNum.jsMul_fin, JSNum.jsMax_fin,
        if_pos hw2]
    · have hdiv : w1 / FLAME_REFERENCE_WIDTH = 2 * w1 := by
        norm_num [FLAME_REFERENCE_WIDTH]
        ring
      rw [hdiv]
      refine max_le (by linarith) ?_
      nlinarith
    · have hdiv : w2 / SMOKE_REFERENCE_WIDTH = (4/3) * w2 := by
        rw [SMOKE_REFERENCE_WIDTH, div_eq_iff (by norm_num : (3/4 : ℚ) ≠ 0)]
        ring
      rw [hdiv]
      refine max_le (by linarith) ?_
      nlinarith

/-- Witness for C10 at a concrete height and concrete positive widths. -/
theorem lookup_within_extreme_rows_witness :
    (∃ f s, lookupBaseDistances (.fin 10) = (.fin f, .fin s) ∧
        4 ≤ f ∧ f ≤ 34 ∧ 3 ≤ s ∧ s ≤ 26) ∧
    (∃ q1 q2,
        (calculateAviotec ⟨.fin 10, .fin 48, .fin 6, .fin (1/2),
          .fin (3/4)⟩).flameMaxDistanceMeters = .fin q1 ∧
        (calculateAviotec ⟨.fin 10, .fin 48, .fin 6, .fin (1/2),
          .fin (3/4)⟩).smokeMaxDistanceMeters = .fin q2 ∧
        q1 ≤ 68 * (1/2) ∧ q2 ≤ (104/3) * (3/4)) :=
  ⟨lookup_within_extreme_rows.1 (.fin 10),
   lookup_within_extreme_rows.2 (.fin 10) (.fin 48) (.fin 6) (1/2) (3/4)
     (by norm_num) (by norm_num)⟩

/-- C1 (amended): `calcFootprint` normalizes every non-finite input to 0 before
computation and none of its outputs is ever NaN or infinite (given that
`Math.tan` is finite on finite arguments); `calculateAviotec`, in contrast,
performs no such normalization, so this finiteness guarantee does not extend to
it (see the counterexample). -/
theorem calcFootprint_sanitizes_and_outputs_finite :
    (∀ (tan : JSNum → JSNum) (p : CameraFootprintParams),
        calcFootprint tan p = calcFootprint tan (sanitizeParams p)) ∧
    (∀ (tan : JSNum → JSNum) (p : CameraFootprintParams),
        (∀ q : ℚ, ∃ r : ℚ, tan (.fin q) = .fin r) →
        (calcFootprint tan p).width.isFinite = true ∧
        (calcFootprint tan p).depth.isFinite = true ∧
        (calcFootprint tan p).area.isFinite = true ∧
        (calcFootprint tan p).d.isFinite = true) := by
  constructor
  · intro tan p
    simp [calcFootprint, sanitizeParams, safeValue_idem]
  · intro tan p htan
    obtain ⟨qc, hqc⟩ := safeValue_eq_fin p.cameraHeight
    obtain ⟨qr, hqr⟩ := safeValue_eq_fin p.rangeMax
    obtain ⟨qh, hqh⟩ := safeValue_eq_fin p.hfovDeg
    obtain ⟨qv, hqv⟩ := safeValue_eq_fin p.vfovDeg
    have h2 : (2:ℚ) ≠ 0 := two_ne_zero
    have h180 : (180:ℚ) ≠ 0 := by norm_num
    obtain ⟨th, hth⟩ := htan (qh / 2 * mathPI / 180)
    obtain ⟨tv, htv⟩ := htan (qv / 2 * mathPI / 180)
    simp only [calcFootprint, hqc, hqr, hqh, hqv, toRadians,
      JSNum.jsDiv_fin_of_ne _ _ h2, JSNum.jsMul_fin, JSNum.jsDiv_fin_of_ne _ _ h180,
      JSNum.jsMax_fin, JSNum.jsMin_fin]
    rw [hth, htv]
    simp

/-- Witness for C1's amended theorem at concrete non-finite inputs. -/
theorem calcFootprint_sanitizes_and_outputs_finite_witness :
    (calcFootprint (fun _ => .fin 0) ⟨.nan, .inf, .fin 90, .fin 60⟩
        = calcFootprint (fun _ => .fin 0) (sanitizeParams ⟨.nan, .inf, .fin 90, .fin 60⟩)) ∧
    (calcFootprint (fun _ => .fin 0) ⟨.nan, .inf, .fin 90, .fin 60⟩).width.isFinite = true ∧
    (calcFootprint (fun _ => .fin 0) ⟨.nan, .inf, .fin 90, .fin 60⟩).d.isFinite = true :=
  ⟨calcFootprint_sanitizes_and_outputs_finite.1 _ _,
   (calcFootprint_sanitizes_and_outputs_finite.2 _ _ (fun _ => ⟨0, rfl⟩)).1,
   (calcFootprint_sanitizes_and_outputs_finite.2 _ _ (fun _ => ⟨0, rfl⟩)).2.2.2⟩

/-- C1 (counterexample): `calculateAviotec` does not normalize non-finite
inputs; an infinite minimum flame width makes its flame output infinite. -/
theorem calculateAviotec_infinite_output :
    (calculateAviotec ⟨.fin 10, .fin 48, .fin 6, .inf,
      .fin (3/4)⟩).flameMaxDistanceMeters = JSNum.inf ∧
    (calculateAviotec ⟨.fin 10, .fin 48, .fin 6, .inf,
      .fin (3/4)⟩).flameMaxDistanceMeters.isFinite = false := by
  have : (calculateAviotec ⟨.fin 10, .fin 48, .fin 6, .inf,
      .fin (3/4)⟩).flameMaxDistanceMeters = JSNum.inf := by
    rw [calculateAviotec_flame]
    norm_num [lookupBaseDistances_eq, clampJS, findIdxO, HEIGHT_LOOKUP, interpolate,
      JSNum.jsDiv, JSNum.jsMax, JSNum.jsMin, JSNum.jsMul, JSNum.jsGt, JSNum.jsLt,
      FLAME_REFERENCE_WIDTH]
  exact ⟨this, by rw [this]; rfl⟩

/-- C2: for FovParams inputs (finite, non-negative mounting height and range),
the projection distance equals `clamp(min(mountingHeight, rangeMax), 0, +inf)`
and is at most each of `rangeMax` and `mountingHeight`. -/
theorem calcFootprint_projection_distance
    (tan : JSNum → JSNum) (p : CameraFootprintParams) (hc rc : ℚ)
    (hch : p.cameraHeight = .fin hc) (hrm : p.rangeMax = .fin rc)
    (h0c : 0 ≤ hc) (h0r : 0 ≤ rc) :
    (calcFootprint tan p).d = .fin (max 0 (min hc rc)) ∧
    (calcFootprint tan p).d = .fin (min hc rc) ∧
    min hc rc ≤ rc ∧ min hc rc ≤ hc := by
  have hd : (calcFootprint tan p).d = .fin (max 0 (min hc rc)) := by
    simp only [calcFootprint, hch, hrm, safeValue_fin, JSNum.jsMax_fin, JSNum.jsMin_fin,
      max_eq_right h0c, max_eq_right h0r]
  refine ⟨hd, ?_, min_le_right _ _, min_le_left _ _⟩
  rw [hd, max_eq_right (le_min h0c h0r)]

/-- Witness for C2 at concrete finite non-negative inputs. -/
theorem calcFootprint_projection_distance_witness :
    (calcFootprint (fun _ => .fin 0) ⟨.fin 3, .fin 2, .fin 90, .fin 60⟩).d
        = .fin (max 0 (min (3:ℚ) 2)) ∧
    (calcFootprint (fun _ => .fin 0) ⟨.fin 3, .fin 2, .fin 90, .fin 60⟩).d
        = .fin (min (3:ℚ) 2) ∧
    min (3:ℚ) 2 ≤ 2 ∧ min (3:ℚ) 2 ≤ 3 :=
  calcFootprint_projection_distance _ _ 3 2 rfl rfl (by norm_num) (by norm_num)

/-! ## C8: the bounds clamp of `Mode3DParam` -/

lemma clampQ_idem (v lo hi : ℚ) : clampQ (clampQ v lo hi) lo hi = clampQ v lo hi := by
  unfold clampQ
  rcases le_total lo hi with hlh | hlh
  · have hge : lo ≤ min (max v lo) hi := le_min (le_trans (le_max_right v lo) le_rfl) hlh
    rw [max_eq_left hge, min_eq_left (min_le_right _ _)]
  · have hc : min (max v lo) hi = hi := min_eq_right (le_trans hlh (le_max_right v lo))
    rw [hc, max_eq_right hlh, min_eq_right hlh]

lemma clampQ_eq_self (v lo hi : ℚ) (h1 : lo ≤ v) (h2 : v ≤ hi) : clampQ v lo hi = v := by
  unfold clampQ
  rw [max_eq_left h1, min_eq_left h2]

/-- An unfolding of the bounds-clamp updater (definitional). -/
lemma clampPlacement_eq (inputs : Mode3DInputs) (p : CameraPlacement) :
    clampPlacementToBounds inputs (some p) =
      (if p.position =
          ( clampQ p.position.1 inputs.wallThickness (inputs.roomLength - inputs.wallThickness)
          , clampQ inputs.cameraHeight 0 inputs.roomHeight
          , clampQ p.position.2.2 inputs.wallThickness (inputs.roomWidth - inputs.wallThickness) )
       then some p
       else some
        { position :=
            ( clampQ p.position.1 inputs.wallThickness (inputs.roomLength - inputs.wallThickness)
            , clampQ inputs.cameraHeight 0 inputs.roomHeight
            , clampQ p.position.2.2 inputs.wallThickness (inputs.roomWidth - inputs.wallThickness) )
          normal := p.normal }) := rfl

lemma clampPlacement_some (inputs : Mode3DInputs) (p : CameraPlacement) :
    ∃ r, clampPlacementToBounds inputs (some p) = some r ∧ r.normal = p.normal ∧
      r.position =
        ( clampQ p.position.1 inputs.wallThickness (inputs.roomLength - inputs.wallThickness)
        , clampQ inputs.cameraHeight 0 inputs.roomHeight
        , clampQ p.position.2.2 inputs.wallThickness (inputs.roomWidth - inputs.wallThickness) ) := by
  rw [clampPlacement_eq]
  by_cases hs : p.position =
      ( clampQ p.position.1 inputs.wallThickness (inputs.roomLength - inputs.wallThickness)
      , clampQ inputs.cameraHeight 0 inputs.roomHeight
      , clampQ p.position.2.2 inputs.wallThickness (inputs.roomWidth - inputs.wallThickness) )
  · rw [if_pos hs]
    exact ⟨p, rfl, rfl, hs⟩
  · rw [if_neg hs]
    exact ⟨_, rfl, rfl, rfl⟩

lemma clampPlacement_noop (inputs : Mode3DInputs) (p : CameraPlacement)
    (hx : p.position =
      ( clampQ p.position.1 inputs.wallThickness (inputs.roomLength - inputs.wallThickness)
      , clampQ inputs.cameraHeight 0 inputs.roomHeight
      , clampQ p.position.2.2 inputs.wallThickness (inputs.roomWidth - inputs.wallThickness) )) :
    clampPlacementToBounds inputs (some p) = some p := by
  rw [clampPlacement_eq, if_pos hx]

/-- C8 (amended): the bounds clamp is idempotent and preserves the normal
unchanged; it is a no-op on a placement that is inside bounds AND whose `y`
already equals the clamped `cameraHeight` input (the code overwrites `y` with
`clamp(cameraHeight, 0, roomHeight)` instead of clamping the previous `y`). -/
theorem clampToBounds_idempotent_and_normal_preserving
    (inputs : Mode3DInputs) (p : CameraPlacement) :
    clampPlacementToBounds inputs (clampPlacementToBounds inputs (some p))
        = clampPlacementToBounds inputs (some p) ∧
    (∀ q, clampPlacementToBounds inputs (some p) = some q → q.normal = p.normal) ∧
    (inBounds inputs p →
      p.position.2.1 = clampQ inputs.cameraHeight 0 inputs.roomHeight →
      clampPlacementToBounds inputs (some p) = some p) := by
  obtain ⟨r, hr, hrn, hrp⟩ := clampPlacement_some inputs p
  refine ⟨?_, ?_, ?_⟩
  · rw [hr]
    apply clampPlacement_noop
    rw [hrp]
    simp [clampQ_idem]
  · intro q hq
    rw [hr] at hq
    injection hq with h
    rw [← h]
    exact hrn
  · intro hin hy
    apply clampPlacement_noop
    have h1 := clampQ_eq_self p.position.1 inputs.wallThickness
      (inputs.roomLength - inputs.wallThickness) hin.1 hin.2.1
    have h3 := clampQ_eq_self p.position.2.2 inputs.wallThickness
      (inputs.roomWidth - inputs.wallThickness) hin.2.2.2.2.1 hin.2.2.2.2.2
    rw [h1, h3, ← hy]

/-- Witness for C8's amended theorem at concrete inputs. -/
theorem clampToBounds_idempotent_and_normal_preserving_witness :
    clampPlacementToBounds ⟨10, 10, 3, 1/5, 3, 90, 60, 30⟩
        (clampPlacementToBounds ⟨10, 10, 3, 1/5, 3, 90, 60, 30⟩ (some ⟨(5, 3, 5), (0, 1, 0)⟩))
      = clampPlacementToBounds ⟨10, 10, 3, 1/5, 3, 90, 60, 30⟩ (some ⟨(5, 3, 5), (0, 1, 0)⟩) ∧
    clampPlacementToBounds ⟨10, 10, 3, 1/5, 3, 90, 60, 30⟩ (some ⟨(5, 3, 5), (0, 1, 0)⟩)
      = some ⟨(5, 3, 5), (0, 1, 0)⟩ :=
  ⟨(clampToBounds_idempotent_and_normal_preserving _ _).1,
   (clampToBounds_idempotent_and_normal_preserving _ _).2.2
     (by norm_num [inBounds]) (by norm_num [clampQ])⟩

/-- C8 (counterexample): a placement strictly inside the room bounds is NOT
returned unchanged when the camera-height input differs from its `y`: the
clamp effect replaces `y` with `clamp(cameraHeight, 0, roomHeight)`. -/
theorem clampToBounds_in_bounds_not_noop :
    inBounds ⟨10, 10, 3, 1/5, 7/2, 90, 60, 30⟩ ⟨(5, 1, 5), (0, 1, 0)⟩ ∧
    clampPlacementToBounds ⟨10, 10, 3, 1/5, 7/2, 90, 60, 30⟩ (some ⟨(5, 1, 5), (0, 1, 0)⟩)
      ≠ some ⟨(5, 1, 5), (0, 1, 0)⟩ := by
  constructor
  · norm_num [inBounds]
  · rw [clampPlacement_eq]
    norm_num [clampQ]

/-! ## C9: the aim raycaster's returned normal -/

lemma length3_smul (c : ℝ) (v : Vec3) : length3 (smul3 c v) = |c| * length3 v := by
  simp only [length3, smul3]
  have h : c * v.x * (c * v.x) + c * v.y * (c * v.y) + c * v.z * (c * v.z)
      = c ^ 2 * (v.x * v.x + v.y * v.y + v.z * v.z) := by ring
  rw [h, Real.sqrt_mul (sq_nonneg c), Real.sqrt_sq_eq_abs]

lemma dot3_neg_left (u d : Vec3) : dot3 (smul3 (-1) u) d = -(dot3 u d) := by
  simp only [dot3, smul3]
  ring

/-- C9: the normal returned for a ray hit (with a nonzero world-space face
normal) is unit-length and never has positive dot product with the incoming
ray direction: it is flipped whenever it points along the ray. -/
theorem aim_normal_unit_and_opposed (faceNormal direction : Vec3)
    (hnz : 0 < faceNormal.x * faceNormal.x + faceNormal.y * faceNormal.y
        + faceNormal.z * faceNormal.z) :
    length3 (resolveAimNormal faceNormal direction) = 1 ∧
    dot3 (resolveAimNormal faceNormal direction) direction ≤ 0 := by
  have hlen : 0 < length3 faceNormal := Real.sqrt_pos.mpr hnz
  have hne : length3 faceNormal ≠ 0 := ne_of_gt hlen
  have hunit : length3 (normalize3 faceNormal) = 1 := by
    simp only [normalize3]
    rw [if_neg hne, length3_smul, abs_of_pos (one_div_pos.mpr hlen),
      one_div_mul_cancel hne]
  simp only [resolveAimNormal]
  by_cases hd : 0 < dot3 (normalize3 faceNormal) direction
  · rw [if_pos hd]
    constructor
    · rw [length3_smul, hunit]
      norm_num
    · rw [dot3_neg_left]
      linarith
  · rw [if_neg hd]
    exact ⟨hunit, not_lt.mp hd⟩

/-- Witness for C9 at a concrete face normal and ray direction. -/
theorem aim_normal_unit_and_opposed_witness :
    length3 (resolveAimNormal ⟨0, 0, 2⟩ ⟨0, 0, 1⟩) = 1 ∧
    dot3 (resolveAimNormal ⟨0, 0, 2⟩ ⟨0, 0, 1⟩) ⟨0, 0, 1⟩ ≤ 0 :=
  aim_normal_unit_and_opposed ⟨0, 0, 2⟩ ⟨0, 0, 1⟩ (by norm_num)
